import Mathlib

/-!
Shallow embedding of `src/SafePublish.h`: a guard around a PubSubClient-style
MQTT client that validates a publish against the client's configured buffer
size, keeps success/fail counters, and offers a power-of-two buffer sizing
helper.  Machine `int` values are modelled as `Int`; the `unsigned long`
counters (32-bit on the ESP32 target) are modelled as `Nat` with every
counter operation taken modulo `2 ^ 32`, so counter wrap-around is preserved.
The `Serial` text sink carries no state that the verified properties depend
on, so only the state-relevant effects (counter updates, underlying publish
invocations, buffer reconfigurations) are modelled, the latter two as
explicit call logs on the client.
-/

/-- Model of the external PubSubClient dependency: connection flag, configured
buffer size, the (opaque, deterministic) outcome the transport would give a
publish, and logs of the underlying `publish` and `setBufferSize` invocations
made on it. -/
structure PubSubClient where
  connected : Bool
  bufferSize : Int
  pubResult : String → String → Bool
  publishCalls : List (String × String)
  setBufferCalls : List Int

/-- The client's `getBufferSize()`. -/
def PubSubClient.getBufferSize (c : PubSubClient) : Int := c.bufferSize

/-- The client's `publish(topic, payload)`: returns the transport outcome and
records the invocation. -/
def PubSubClient.publish (c : PubSubClient) (topic payload : String) :
    Bool × PubSubClient :=
  (c.pubResult topic payload,
   { c with publishCalls := c.publishCalls ++ [(topic, payload)] })

/-- The client's `setBufferSize(n)`: reconfigures the buffer and records the
invocation. -/
def PubSubClient.setBufferSize (c : PubSubClient) (n : Int) : PubSubClient :=
  { c with bufferSize := n, setBufferCalls := c.setBufferCalls ++ [n] }

/-- Model of the Arduino `String` type used by the convenience overload; only
its character content is relevant. -/
structure ArduinoString where
  chars : String
deriving DecidableEq

/-- Arduino `String.c_str()`: the underlying character sequence. -/
def ArduinoString.c_str (s : ArduinoString) : String := s.chars

/-- State of the SafePublish guard: the wrapped client reference and the two
`unsigned long` counters (fields `_client`, `_successCount`, `_failCount`).
The counters hold 32-bit unsigned values: every mutation in the model is
taken modulo `2 ^ 32`, matching the wrap-around of `unsigned long` on the
ESP32 target. -/
structure SafePublish where
  client : PubSubClient
  successCount : Nat
  failCount : Nat

namespace SafePublish

/-- `static const int MQTT_OVERHEAD = 10` (line 125). -/
def MQTT_OVERHEAD : Int := 10

/-- Modulus of the 32-bit `unsigned long` counters on the ESP32 target:
`ULONG_MAX + 1 = 2 ^ 32`. -/
def ULONG_MOD : Nat := 2 ^ 32

/-- The loop of `nextPowerOf2` (line 129): `while (p < n && p < 8192) p *= 2;`.
The positivity of `p` witnesses termination: `p` doubles towards the 8192
ceiling. -/
def np2go (n p : Int) (hp : 0 < p) : Int :=
  if h : p < n ∧ p < 8192 then np2go n (p * 2) (by omega) else p
termination_by (8192 - p).toNat
decreasing_by omega

/-- `nextPowerOf2(n)` (lines 127-131): start at 128, double while below `n`
and below the 8192 ceiling. -/
def nextPowerOf2 (n : Int) : Int := np2go n 128 (by norm_num)

/-- The `needed` computation of `autoConfigureBuffer` (line 97):
`maxTopicLen + maxPayloadLen + MQTT_OVERHEAD + 50`. -/
def neededSize (maxTopicLen maxPayloadLen : Int) : Int :=
  maxTopicLen + maxPayloadLen + MQTT_OVERHEAD + 50

/-- `SafePublish::publish(const char*, const char*)` (lines 34-79): pre-flight
size check against the client's buffer, then connection check, then delegation
to the client's publish.  Returns the boolean result together with the updated
guard state.  Each `++` on an `unsigned long` counter is the wrapping
increment `(x + 1) % ULONG_MOD`. -/
def publish (sp : SafePublish) (topic payload : String) : Bool × SafePublish :=
  let topicLen : Int := topic.length
  let payloadLen : Int := payload.length
  let totalSize : Int := topicLen + payloadLen + MQTT_OVERHEAD
  let bufferSize : Int := sp.client.getBufferSize
  if totalSize > bufferSize then
    (false, { sp with failCount := (sp.failCount + 1) % ULONG_MOD })
  else if !sp.client.connected then
    (false, { sp with failCount := (sp.failCount + 1) % ULONG_MOD })
  else
    let r := sp.client.publish topic payload
    let sent := r.1
    if sent then
      (sent, { sp with
                 client := r.2,
                 successCount := (sp.successCount + 1) % ULONG_MOD })
    else
      (sent, { sp with
                 client := r.2,
                 failCount := (sp.failCount + 1) % ULONG_MOD })

/-- `SafePublish::publish(const String&, const String&)` (lines 84-86), the
convenience overload: forwards to the primitive form on the `c_str` contents. -/
def publishString (sp : SafePublish) (topic payload : ArduinoString) :
    Bool × SafePublish :=
  sp.publish topic.c_str payload.c_str

/-- `SafePublish::autoConfigureBuffer(maxTopicLen, maxPayloadLen)`
(lines 96-102): size the buffer to `nextPowerOf2(needed)`, apply it to the
client, return it. -/
def autoConfigureBuffer (sp : SafePublish) (maxTopicLen maxPayloadLen : Int) :
    Int × SafePublish :=
  let needed := neededSize maxTopicLen maxPayloadLen
  let bufSize := nextPowerOf2 needed
  (bufSize, { sp with client := sp.client.setBufferSize bufSize })

/-- One output line of `printStats` (lines 107-115); the failure-rate value
`fail / (success + fail) * 100` is computed in rational arithmetic in place of
the float of the source. -/
inductive StatsLine where
  | header
  | success (n : Nat)
  | failed (n : Nat)
  | failureRate (rate : ℚ)
deriving DecidableEq

/-- The divisor `_successCount + _failCount` of the failure-rate computation
in `printStats` (line 113): the sum is taken in wrapping `unsigned long`
arithmetic before the conversion to floating point. -/
def statsDivisor (sp : SafePublish) : Nat :=
  (sp.successCount + sp.failCount) % ULONG_MOD

/-- `SafePublish::printStats()` (lines 107-115): emits the two counter lines
always, and the failure-rate line (the only division) only when
`_failCount > 0`.  The divisor is the wrapping `unsigned long` sum
`statsDivisor`. -/
def printStats (sp : SafePublish) : List StatsLine :=
  [StatsLine.header, StatsLine.success sp.successCount,
   StatsLine.failed sp.failCount] ++
  (if sp.failCount > 0 then
    [StatsLine.failureRate
      ((sp.failCount : ℚ) / (statsDivisor sp : ℚ) * 100)]
   else [])

/-- `getSuccessCount()` (line 117). -/
def getSuccessCount (sp : SafePublish) : Nat := sp.successCount

/-- `getFailCount()` (line 118). -/
def getFailCount (sp : SafePublish) : Nat := sp.failCount

/-- `resetStats()` (line 119): zero both counters. -/
def resetStats (sp : SafePublish) : SafePublish :=
  { sp with successCount := 0, failCount := 0 }

end SafePublish

/-- The operations a caller can perform on a guard, for stating the
whole-interface invariants. -/
inductive Op where
  | pub (topic payload : String)
  | pubStr (topic payload : ArduinoString)
  | autoCfg (maxTopicLen maxPayloadLen : Int)
  | stats
  | reset
deriving DecidableEq

/-- Effect of one operation on the guard state.  `printStats` and the two
accessors mutate nothing. -/
def step (sp : SafePublish) : Op → SafePublish
  | Op.pub t p => (sp.publish t p).2
  | Op.pubStr t p => (sp.publishString t p).2
  | Op.autoCfg a b => (sp.autoConfigureBuffer a b).2
  | Op.stats => sp
  | Op.reset => sp.resetStats

/-- A sequence of operations on the guard. -/
def run (sp : SafePublish) (ops : List Op) : SafePublish := ops.foldl step sp

/-- A connected client with the PubSubClient default 256-byte buffer whose
transport accepts every publish. -/
def clientEx : PubSubClient :=
  { connected := true, bufferSize := 256, pubResult := fun _ _ => true,
    publishCalls := [], setBufferCalls := [] }

/-- A guard over `clientEx` with fresh counters. -/
def spEx : SafePublish := { client := clientEx, successCount := 0, failCount := 0 }

/-- A guard over a client with a tiny 8-byte buffer, for oversize scenarios. -/
def spSmall : SafePublish :=
  { client := { clientEx with bufferSize := 8 }, successCount := 0, failCount := 0 }

/-- A guard over a disconnected client. -/
def spDisc : SafePublish :=
  { client := { clientEx with connected := false }, successCount := 0, failCount := 0 }

/-- A guard that has already recorded one failure. -/
def spFail : SafePublish := { client := clientEx, successCount := 0, failCount := 1 }

/-- A guard whose success counter sits at `ULONG_MAX = 2 ^ 32 - 1` with one
recorded failure, so the `unsigned long` sum of the two counters wraps to 0. -/
def spWrapDiv : SafePublish :=
  { client := clientEx, successCount := 2 ^ 32 - 1, failCount := 1 }


/-! ### Evaluation lemmas for the `nextPowerOf2` loop -/

namespace SafePublish

/-- One iteration of the `nextPowerOf2` loop when the guard holds. -/
lemma np2go_step (n p q : Int) (hp : 0 < p) (hq : 0 < q) (h : p < n) (h8 : p < 8192)
    (hpq : q = p * 2) : np2go n p hp = np2go n q hq := by
  subst hpq
  conv_lhs => rw [np2go]
  exact dif_pos ⟨h, h8⟩

/-- The `nextPowerOf2` loop exits when the guard fails. -/
lemma np2go_exit (n p : Int) (hp : 0 < p) (h : ¬(p < n ∧ p < 8192)) :
    np2go n p hp = p := by
  conv_lhs => rw [np2go]
  exact dif_neg h

lemma np2_region1 (n : Int) (h : n ≤ 128) : nextPowerOf2 n = 128 :=
  np2go_exit n 128 (by norm_num) (by omega)

lemma np2_region2 (n : Int) (h1 : 128 < n) (h2 : n ≤ 256) : nextPowerOf2 n = 256 :=
  (np2go_step n 128 256 (by norm_num) (by norm_num) h1 (by norm_num) (by norm_num)).trans
    (np2go_exit n 256 (by norm_num) (by omega))

lemma np2_region3 (n : Int) (h1 : 256 < n) (h2 : n ≤ 512) : nextPowerOf2 n = 512 :=
  ((np2go_step n 128 256 (by norm_num) (by norm_num) (by omega) (by norm_num)
      (by norm_num)).trans
    (np2go_step n 256 512 (by norm_num) (by norm_num) h1 (by norm_num) (by norm_num))).trans
    (np2go_exit n 512 (by norm_num) (by omega))

lemma np2_region4 (n : Int) (h1 : 512 < n) (h2 : n ≤ 1024) : nextPowerOf2 n = 1024 :=
  (((np2go_step n 128 256 (by norm_num) (by norm_num) (by omega) (by norm_num)
      (by norm_num)).trans
    (np2go_step n 256 512 (by norm_num) (by norm_num) (by omega) (by norm_num)
      (by norm_num))).trans
    (np2go_step n 512 1024 (by norm_num) (by norm_num) h1 (by norm_num) (by norm_num))).trans
    (np2go_exit n 1024 (by norm_num) (by omega))

lemma np2_region5 (n : Int) (h1 : 1024 < n) (h2 : n ≤ 2048) : nextPowerOf2 n = 2048 :=
  ((((np2go_step n 128 256 (by norm_num) (by norm_num) (by omega) (by norm_num)
      (by norm_num)).trans
    (np2go_step n 256 512 (by norm_num) (by norm_num) (by omega) (by norm_num)
      (by norm_num))).trans
    (np2go_step n 512 1024 (by norm_num) (by norm_num) (by omega) (by norm_num)
      (by norm_num))).trans
    (np2go_step n 1024 2048 (by norm_num) (by norm_num) h1 (by norm_num) (by norm_num))).trans
    (np2go_exit n 2048 (by norm_num) (by omega))

lemma np2_region6 (n : Int) (h1 : 2048 < n) (h2 : n ≤ 4096) : nextPowerOf2 n = 4096 :=
  (((((np2go_step n 128 256 (by norm_num) (by norm_num) (by omega) (by norm_num)
      (by norm_num)).trans
    (np2go_step n 256 512 (by norm_num) (by norm_num) (by omega) (by norm_num)
      (by norm_num))).trans
    (np2go_step n 512 1024 (by norm_num) (by norm_num) (by omega) (by norm_num)
      (by norm_num))).trans
    (np2go_step n 1024 2048 (by norm_num) (by norm_num) (by omega) (by norm_num)
      (by norm_num))).trans
    (np2go_step n 2048 4096 (by norm_num) (by norm_num) h1 (by norm_num) (by norm_num))).trans
    (np2go_exit n 4096 (by norm_num) (by omega))

lemma np2_region7 (n : Int) (h1 : 4096 < n) : nextPowerOf2 n = 8192 :=
  ((((((np2go_step n 128 256 (by norm_num) (by norm_num) (by omega) (by norm_num)
      (by norm_num)).trans
    (np2go_step n 256 512 (by norm_num) (by norm_num) (by omega) (by norm_num)
      (by norm_num))).trans
    (np2go_step n 512 1024 (by norm_num) (by norm_num) (by omega) (by norm_num)
      (by norm_num))).trans
    (np2go_step n 1024 2048 (by norm_num) (by norm_num) (by omega) (by norm_num)
      (by norm_num))).trans
    (np2go_step n 2048 4096 (by norm_num) (by norm_num) (by omega) (by norm_num)
      (by norm_num))).trans
    (np2go_step n 4096 8192 (by norm_num) (by norm_num) h1 (by norm_num) (by norm_num))).trans
    (np2go_exit n 8192 (by norm_num) (by omega))

/-- Closed form of `nextPowerOf2`. -/
lemma nextPowerOf2_eq (n : Int) : nextPowerOf2 n =
    if n ≤ 128 then 128 else if n ≤ 256 then 256 else if n ≤ 512 then 512
    else if n ≤ 1024 then 1024 else if n ≤ 2048 then 2048 else if n ≤ 4096 then 4096
    else 8192 := by
  split_ifs with h1 h2 h3 h4 h5 h6
  · exact np2_region1 n h1
  · exact np2_region2 n (by omega) h2
  · exact np2_region3 n (by omega) h3
  · exact np2_region4 n (by omega) h4
  · exact np2_region5 n (by omega) h5
  · exact np2_region6 n (by omega) h6
  · exact np2_region7 n (by omega)

end SafePublish

/-! ### Claim theorems -/

/-- The oversize branch of `publish` (lines 41-57) as a state equation: reject,
perform one wrapping `++` on the fail counter. -/
lemma publish_oversize_eq (sp : SafePublish) (topic payload : String)
    (h : (topic.length : Int) + (payload.length : Int) + 10 > sp.client.bufferSize) :
    sp.publish topic payload =
      (false, { sp with failCount := (sp.failCount + 1) % SafePublish.ULONG_MOD }) := by
  have hc : (topic.length : Int) + (payload.length : Int) + SafePublish.MQTT_OVERHEAD >
      sp.client.getBufferSize := by
    simp only [SafePublish.MQTT_OVERHEAD, PubSubClient.getBufferSize]; omega
  simp only [SafePublish.publish, if_pos hc]

/-- C1: whenever `len(topic) + len(payload) + 10` exceeds the client's reported
buffer size, `publish` returns false, leaves the client's publish call log (and
the success counter) unchanged, and performs exactly one `++` on the fail
counter (a wrapping increment of the 32-bit `unsigned long`). -/
theorem publish_oversize_rejects (sp : SafePublish) (topic payload : String)
    (h : (topic.length : Int) + (payload.length : Int) + 10 > sp.client.bufferSize) :
    (sp.publish topic payload).1 = false ∧
    (sp.publish topic payload).2.failCount = (sp.failCount + 1) % SafePublish.ULONG_MOD ∧
    (sp.publish topic payload).2.successCount = sp.successCount ∧
    (sp.publish topic payload).2.client.publishCalls = sp.client.publishCalls := by
  rw [publish_oversize_eq sp topic payload h]
  exact ⟨rfl, rfl, rfl, rfl⟩

/-- Witness for C1: an 8-byte buffer rejects topic `"abc"` with empty payload
(total 13 bytes). -/
theorem publish_oversize_rejects_witness :
    (spSmall.publish "abc" "").1 = false ∧
    (spSmall.publish "abc" "").2.failCount = (spSmall.failCount + 1) % SafePublish.ULONG_MOD ∧
    (spSmall.publish "abc" "").2.successCount = spSmall.successCount ∧
    (spSmall.publish "abc" "").2.client.publishCalls = spSmall.client.publishCalls :=
  publish_oversize_rejects spSmall "abc" "" (by decide)

/-- C2: whenever the message fits, the client is connected, and the underlying
publish returns true, `publish` returns true and performs exactly one `++` on
the success counter (a wrapping increment of the 32-bit `unsigned long`),
leaving the fail counter unchanged. -/
theorem publish_success (sp : SafePublish) (topic payload : String)
    (hfit : (topic.length : Int) + (payload.length : Int) + 10 ≤ sp.client.bufferSize)
    (hconn : sp.client.connected = true)
    (hpub : sp.client.pubResult topic payload = true) :
    (sp.publish topic payload).1 = true ∧
    (sp.publish topic payload).2.successCount = (sp.successCount + 1) % SafePublish.ULONG_MOD ∧
    (sp.publish topic payload).2.failCount = sp.failCount := by
  have hc : ¬((topic.length : Int) + (payload.length : Int) + SafePublish.MQTT_OVERHEAD >
      sp.client.getBufferSize) := by
    simp only [SafePublish.MQTT_OVERHEAD, PubSubClient.getBufferSize]; omega
  simp only [SafePublish.publish, if_neg hc, PubSubClient.publish, hconn, hpub,
    Bool.not_true, Bool.false_eq_true, if_false, if_true]
  exact ⟨trivial, trivial, trivial⟩

/-- Witness for C2: topic `"t"`, payload `"p"` (total 12 bytes) on a connected
client with a 256-byte buffer whose transport accepts the message. -/
theorem publish_success_witness :
    (spEx.publish "t" "p").1 = true ∧
    (spEx.publish "t" "p").2.successCount = (spEx.successCount + 1) % SafePublish.ULONG_MOD ∧
    (spEx.publish "t" "p").2.failCount = spEx.failCount :=
  publish_success spEx "t" "p" (by decide) (by decide) (by decide)

/-- C3: whenever the message fits but the client reports not connected,
`publish` returns false, performs exactly one `++` on the fail counter (a
wrapping increment of the 32-bit `unsigned long`), and leaves the client's
publish call log (and the success counter) unchanged. -/
theorem publish_disconnected_rejects (sp : SafePublish) (topic payload : String)
    (hfit : (topic.length : Int) + (payload.length : Int) + 10 ≤ sp.client.bufferSize)
    (hconn : sp.client.connected = false) :
    (sp.publish topic payload).1 = false ∧
    (sp.publish topic payload).2.failCount = (sp.failCount + 1) % SafePublish.ULONG_MOD ∧
    (sp.publish topic payload).2.successCount = sp.successCount ∧
    (sp.publish topic payload).2.client.publishCalls = sp.client.publishCalls := by
  have hc : ¬((topic.length : Int) + (payload.length : Int) + SafePublish.MQTT_OVERHEAD >
      sp.client.getBufferSize) := by
    simp only [SafePublish.MQTT_OVERHEAD, PubSubClient.getBufferSize]; omega
  simp only [SafePublish.publish, if_neg hc, hconn, Bool.not_false, if_true]
  exact ⟨trivial, trivial, trivial, trivial⟩

/-- Witness for C3: topic `"t"`, payload `"p"` (total 12 bytes) fits the
256-byte buffer of a disconnected client. -/
theorem publish_disconnected_rejects_witness :
    (spDisc.publish "t" "p").1 = false ∧
    (spDisc.publish "t" "p").2.failCount = (spDisc.failCount + 1) % SafePublish.ULONG_MOD ∧
    (spDisc.publish "t" "p").2.successCount = spDisc.successCount ∧
    (spDisc.publish "t" "p").2.client.publishCalls = spDisc.client.publishCalls :=
  publish_disconnected_rejects spDisc "t" "p" (by decide) (by decide)

/-- C4: `nextPowerOf2` is monotonically non-decreasing, always returns a power
of two in `[128, 8192]`, and returns 8192 for every `n > 8192`. -/
theorem nextPowerOf2_props :
    (∀ m n : Int, m ≤ n → SafePublish.nextPowerOf2 m ≤ SafePublish.nextPowerOf2 n) ∧
    (∀ n : Int, (∃ k : ℕ, SafePublish.nextPowerOf2 n = 2 ^ k) ∧
      128 ≤ SafePublish.nextPowerOf2 n ∧ SafePublish.nextPowerOf2 n ≤ 8192) ∧
    (∀ n : Int, 8192 < n → SafePublish.nextPowerOf2 n = 8192) := by
  refine ⟨?_, ?_, ?_⟩
  · intro m n h
    rw [SafePublish.nextPowerOf2_eq, SafePublish.nextPowerOf2_eq]
    split_ifs <;> omega
  · intro n
    rw [SafePublish.nextPowerOf2_eq]
    split_ifs
    · exact ⟨⟨7, by norm_num⟩, by norm_num, by norm_num⟩
    · exact ⟨⟨8, by norm_num⟩, by norm_num, by norm_num⟩
    · exact ⟨⟨9, by norm_num⟩, by norm_num, by norm_num⟩
    · exact ⟨⟨10, by norm_num⟩, by norm_num, by norm_num⟩
    · exact ⟨⟨11, by norm_num⟩, by norm_num, by norm_num⟩
    · exact ⟨⟨12, by norm_num⟩, by norm_num, by norm_num⟩
    · exact ⟨⟨13, by norm_num⟩, by norm_num, by norm_num⟩
  · intro n h
    rw [SafePublish.nextPowerOf2_eq]
    split_ifs <;> omega

/-- Witness for C4: monotonicity at 100 ≤ 1000 and the 8192 cap at 9000. -/
theorem nextPowerOf2_props_witness :
    SafePublish.nextPowerOf2 100 ≤ SafePublish.nextPowerOf2 1000 ∧
    SafePublish.nextPowerOf2 9000 = 8192 :=
  ⟨nextPowerOf2_props.1 100 1000 (by norm_num),
   nextPowerOf2_props.2.2 9000 (by norm_num)⟩

/-- C5: `autoConfigureBuffer` computes `needed = maxTopicLen + maxPayloadLen +
10 + 50`, configures the client's buffer to `nextPowerOf2(needed)`, and returns
that same value. -/
theorem autoConfigureBuffer_spec (sp : SafePublish) (maxTopicLen maxPayloadLen : Int) :
    SafePublish.neededSize maxTopicLen maxPayloadLen = maxTopicLen + maxPayloadLen + 10 + 50 ∧
    (sp.autoConfigureBuffer maxTopicLen maxPayloadLen).1 =
      SafePublish.nextPowerOf2 (SafePublish.neededSize maxTopicLen maxPayloadLen) ∧
    (sp.autoConfigureBuffer maxTopicLen maxPayloadLen).2.client.bufferSize =
      (sp.autoConfigureBuffer maxTopicLen maxPayloadLen).1 :=
  ⟨rfl, rfl, rfl⟩

/-- C7 counterexample: `autoConfigureBuffer(1000, 20000)` does not compute
`needed = 21080`; the source computes `1000 + 20000 + 10 + 50 = 21060`. -/
theorem autoConfigure_needed_not_21080 :
    SafePublish.neededSize 1000 20000 ≠ 21080 := by decide

/-- C7 (amended): `autoConfigureBuffer(1000, 20000)` computes `needed = 21060`
and the sizing rule caps the configured and returned buffer size at 8192. -/
theorem autoConfigure_1000_20000_caps (sp : SafePublish) :
    SafePublish.neededSize 1000 20000 = 21060 ∧
    (sp.autoConfigureBuffer 1000 20000).1 = 8192 ∧
    (sp.autoConfigureBuffer 1000 20000).2.client.bufferSize = 8192 := by
  refine ⟨by decide, ?_, ?_⟩
  · show SafePublish.nextPowerOf2 (SafePublish.neededSize 1000 20000) = 8192
    exact SafePublish.np2_region7 _ (by decide)
  · show SafePublish.nextPowerOf2 (SafePublish.neededSize 1000 20000) = 8192
    exact SafePublish.np2_region7 _ (by decide)

/-- C8: the String overload of `publish` forwards to the primitive form on the
same character sequences, with identical result, counters and client state. -/
theorem publishString_forwards (sp : SafePublish) (topic payload : ArduinoString) :
    sp.publishString topic payload = sp.publish topic.c_str payload.c_str ∧
    (sp.publishString topic payload).1 = (sp.publish topic.c_str payload.c_str).1 ∧
    (sp.publishString topic payload).2.successCount =
      (sp.publish topic.c_str payload.c_str).2.successCount ∧
    (sp.publishString topic payload).2.failCount =
      (sp.publish topic.c_str payload.c_str).2.failCount ∧
    (sp.publishString topic payload).2.client =
      (sp.publish topic.c_str payload.c_str).2.client :=
  ⟨rfl, rfl, rfl, rfl, rfl⟩

/-- The counter modulus as a numeral, for arithmetic automation. -/
lemma ulong_mod_eq : SafePublish.ULONG_MOD = 4294967296 := by
  norm_num [SafePublish.ULONG_MOD]

/-- Every publish attempt performs exactly one wrapping `++`, on exactly one
of the two counters. -/
lemma publish_counters (sp : SafePublish) (t p : String) :
    ((sp.publish t p).2.successCount = (sp.successCount + 1) % SafePublish.ULONG_MOD ∧
      (sp.publish t p).2.failCount = sp.failCount) ∨
    ((sp.publish t p).2.successCount = sp.successCount ∧
      (sp.publish t p).2.failCount = (sp.failCount + 1) % SafePublish.ULONG_MOD) := by
  simp only [SafePublish.publish, PubSubClient.publish]
  split_ifs <;> simp

/-- Publish never touches the client's buffer configuration; it can only append
to the publish call log. -/
lemma publish_client_frame (sp : SafePublish) (t p : String) :
    (sp.publish t p).2.client.bufferSize = sp.client.bufferSize ∧
    (sp.publish t p).2.client.setBufferCalls = sp.client.setBufferCalls := by
  simp only [SafePublish.publish, PubSubClient.publish]
  split_ifs <;> simp

/-- One operation grows each counter by at most one. -/
lemma step_counters_le (sp : SafePublish) (op : Op) :
    (step sp op).successCount ≤ sp.successCount + 1 ∧
    (step sp op).failCount ≤ sp.failCount + 1 := by
  cases op with
  | pub t p =>
    rcases publish_counters sp t p with ⟨h1, h2⟩ | ⟨h1, h2⟩
    · simp only [step]; rw [h1, h2]; exact ⟨Nat.mod_le _ _, Nat.le_succ _⟩
    · simp only [step]; rw [h1, h2]; exact ⟨Nat.le_succ _, Nat.mod_le _ _⟩
  | pubStr t p =>
    rcases publish_counters sp t.c_str p.c_str with ⟨h1, h2⟩ | ⟨h1, h2⟩
    · simp only [step, SafePublish.publishString]; rw [h1, h2]
      exact ⟨Nat.mod_le _ _, Nat.le_succ _⟩
    · simp only [step, SafePublish.publishString]; rw [h1, h2]
      exact ⟨Nat.le_succ _, Nat.mod_le _ _⟩
  | autoCfg a b => exact ⟨Nat.le_succ _, Nat.le_succ _⟩
  | stats => exact ⟨Nat.le_succ _, Nat.le_succ _⟩
  | reset => exact ⟨Nat.zero_le _, Nat.zero_le _⟩

/-- No operation other than `resetStats` decreases either counter, as long as
the wrapping increment has room (counter below `ULONG_MAX`). -/
lemma step_counters_mono (sp : SafePublish) (op : Op) (h : op ≠ Op.reset)
    (hs : sp.successCount + 1 < SafePublish.ULONG_MOD)
    (hf : sp.failCount + 1 < SafePublish.ULONG_MOD) :
    sp.successCount ≤ (step sp op).successCount ∧
    sp.failCount ≤ (step sp op).failCount := by
  rw [ulong_mod_eq] at hs hf
  cases op with
  | pub t p =>
    rcases publish_counters sp t p with ⟨h1, h2⟩ | ⟨h1, h2⟩ <;> simp only [step] <;>
      rw [h1, h2, ulong_mod_eq] <;> constructor <;> omega
  | pubStr t p =>
    rcases publish_counters sp t.c_str p.c_str with ⟨h1, h2⟩ | ⟨h1, h2⟩ <;>
      simp only [step, SafePublish.publishString] <;> rw [h1, h2, ulong_mod_eq] <;>
      constructor <;> omega
  | autoCfg a b => exact ⟨le_refl _, le_refl _⟩
  | stats => exact ⟨le_refl _, le_refl _⟩
  | reset => exact absurd rfl h

/-- Counter monotonicity extends to every reset-free operation sequence short
enough that neither counter can wrap. -/
lemma run_counters_mono (sp : SafePublish) (ops : List Op)
    (h : ∀ op ∈ ops, op ≠ Op.reset)
    (hs : sp.successCount + ops.length < SafePublish.ULONG_MOD)
    (hf : sp.failCount + ops.length < SafePublish.ULONG_MOD) :
    sp.successCount ≤ (run sp ops).successCount ∧
    sp.failCount ≤ (run sp ops).failCount := by
  induction ops generalizing sp with
  | nil => exact ⟨le_refl _, le_refl _⟩
  | cons op ops ih =>
    have hlen : (op :: ops).length = ops.length + 1 := rfl
    have hle := step_counters_le sp op
    have h1 := step_counters_mono sp op (h op (List.mem_cons_self _ _))
      (by rw [hlen] at hs; omega) (by rw [hlen] at hf; omega)
    have h2 := ih (step sp op) (fun o ho => h o (List.mem_cons_of_mem _ ho))
      (by rw [hlen] at hs; omega) (by rw [hlen] at hf; omega)
    simp only [run, List.foldl_cons] at h2 ⊢
    exact ⟨le_trans h1.1 h2.1, le_trans h1.2 h2.2⟩

/-- The state reached from the fresh small-buffer guard by `n` oversize publish
attempts: the client is untouched and the fail counter holds `n` modulo the
32-bit wrap. -/
lemma run_oversize_aux (n : Nat) :
    run spSmall (List.replicate n (Op.pub "abc" "")) =
      { client := spSmall.client, successCount := 0,
        failCount := n % SafePublish.ULONG_MOD } := by
  have h13 : (("abc" : String).length : Int) + (("" : String).length : Int) + 10 >
      spSmall.client.bufferSize := by decide
  induction n with
  | zero =>
    simp only [List.replicate, run, List.foldl_nil, Nat.zero_mod]
    rfl
  | succ n ih =>
    have e1 : run spSmall (List.replicate (n + 1) (Op.pub "abc" "")) =
        step (run spSmall (List.replicate n (Op.pub "abc" ""))) (Op.pub "abc" "") := by
      rw [List.replicate_succ']
      simp only [run, List.foldl_append, List.foldl_cons, List.foldl_nil]
    rw [e1, ih]
    simp only [step]
    rw [publish_oversize_eq
      { client := spSmall.client, successCount := 0,
        failCount := n % SafePublish.ULONG_MOD } "abc" "" h13]
    show ({ client := spSmall.client, successCount := 0,
            failCount := (n % SafePublish.ULONG_MOD + 1) % SafePublish.ULONG_MOD } :
          SafePublish) =
        { client := spSmall.client, successCount := 0,
          failCount := (n + 1) % SafePublish.ULONG_MOD }
    have hmod : (n % SafePublish.ULONG_MOD + 1) % SafePublish.ULONG_MOD =
        (n + 1) % SafePublish.ULONG_MOD := by
      rw [ulong_mod_eq]; omega
    rw [hmod]

/-- C6 counterexample: the claim "the counters never decrease except when
resetStats is called" is false of the program.  Starting from a fresh guard, a
sequence of `2 ^ 32 - 1` oversize publish attempts (none of them a reset)
drives the 32-bit fail counter to `ULONG_MAX = 2 ^ 32 - 1`, and one further
oversize publish — also not a reset — wraps it to 0, a decrease. -/
theorem counters_wrap_cex :
    Op.pub "abc" "" ≠ Op.reset ∧
    (run spSmall (List.replicate (2 ^ 32 - 1) (Op.pub "abc" ""))).failCount =
      2 ^ 32 - 1 ∧
    (step (run spSmall (List.replicate (2 ^ 32 - 1) (Op.pub "abc" "")))
        (Op.pub "abc" "")).failCount = 0 := by
  have h13 : (("abc" : String).length : Int) + (("" : String).length : Int) + 10 >
      spSmall.client.bufferSize := by decide
  refine ⟨by decide, ?_, ?_⟩
  · rw [run_oversize_aux]
    show (2 ^ 32 - 1) % SafePublish.ULONG_MOD = 2 ^ 32 - 1
    rw [ulong_mod_eq]; norm_num
  · rw [run_oversize_aux]
    simp only [step]
    rw [publish_oversize_eq
      { client := spSmall.client, successCount := 0,
        failCount := (2 ^ 32 - 1) % SafePublish.ULONG_MOD } "abc" "" h13]
    show ((2 ^ 32 - 1) % SafePublish.ULONG_MOD + 1) % SafePublish.ULONG_MOD = 0
    rw [ulong_mod_eq]; norm_num

/-- C6 (amended): each publish attempt performs exactly one wrapping `++` on
exactly one of the two 32-bit counters; `resetStats` zeroes both regardless of
prior values; and the counters never decrease across any reset-free operation
or sequence of operations in which no counter wraps (counter value plus number
of operations below `2 ^ 32`). -/
theorem counters_monotone_mod :
    (∀ (sp : SafePublish) (op : Op), op ≠ Op.reset →
      sp.successCount + 1 < SafePublish.ULONG_MOD →
      sp.failCount + 1 < SafePublish.ULONG_MOD →
      sp.successCount ≤ (step sp op).successCount ∧
      sp.failCount ≤ (step sp op).failCount) ∧
    (∀ sp : SafePublish,
      (step sp Op.reset).successCount = 0 ∧ (step sp Op.reset).failCount = 0) ∧
    (∀ (sp : SafePublish) (ops : List Op), (∀ op ∈ ops, op ≠ Op.reset) →
      sp.successCount + ops.length < SafePublish.ULONG_MOD →
      sp.failCount + ops.length < SafePublish.ULONG_MOD →
      sp.successCount ≤ (run sp ops).successCount ∧
      sp.failCount ≤ (run sp ops).failCount) ∧
    (∀ (sp : SafePublish) (t p : String),
      ((sp.publish t p).2.successCount = (sp.successCount + 1) % SafePublish.ULONG_MOD ∧
        (sp.publish t p).2.failCount = sp.failCount) ∨
      ((sp.publish t p).2.successCount = sp.successCount ∧
        (sp.publish t p).2.failCount = (sp.failCount + 1) % SafePublish.ULONG_MOD)) :=
  ⟨step_counters_mono, fun _ => ⟨rfl, rfl⟩, run_counters_mono, publish_counters⟩

/-- Witness for C6 (amended): a publish followed by a stats call never lowers
the fresh guard's counters. -/
theorem counters_monotone_mod_witness :
    spEx.successCount ≤ (run spEx [Op.pub "t" "p", Op.stats]).successCount ∧
    spEx.failCount ≤ (run spEx [Op.pub "t" "p", Op.stats]).failCount :=
  counters_monotone_mod.2.2.1 spEx [Op.pub "t" "p", Op.stats] (by decide)
    (by norm_num [spEx, SafePublish.ULONG_MOD])
    (by norm_num [spEx, SafePublish.ULONG_MOD])

/-- C9 counterexample: "division by zero never occurs" is false of the
program.  With the success counter at `ULONG_MAX = 2 ^ 32 - 1` and one
recorded failure, the guard `_failCount > 0` passes, yet the `unsigned long`
divisor `_successCount + _failCount` wraps to 0, and `printStats` emits a
failure-rate line computed with a zero divisor. -/
theorem printStats_divzero_cex :
    0 < spWrapDiv.failCount ∧
    SafePublish.statsDivisor spWrapDiv = 0 ∧
    SafePublish.StatsLine.failureRate
        ((spWrapDiv.failCount : ℚ) / (SafePublish.statsDivisor spWrapDiv : ℚ) * 100)
      ∈ spWrapDiv.printStats := by
  refine ⟨by decide, by decide, ?_⟩
  · simp only [SafePublish.printStats]
    rw [if_pos (by decide : spWrapDiv.failCount > 0)]
    simp

/-- C9 (amended): `printStats` emits the failure-rate line (the only division)
exactly when the fail counter is nonzero; its divisor is the wrapping 32-bit
sum `(successCount + failCount) % 2 ^ 32`, which is nonzero — so the division
is not by zero — whenever that sum does not wrap, i.e. whenever
`successCount + failCount < 2 ^ 32`. -/
theorem printStats_division_guarded (sp : SafePublish) :
    ((∃ q : ℚ, SafePublish.StatsLine.failureRate q ∈ sp.printStats) ↔
      0 < sp.failCount) ∧
    (0 < sp.failCount → sp.successCount + sp.failCount < SafePublish.ULONG_MOD →
      (SafePublish.statsDivisor sp : ℚ) ≠ 0) := by
  constructor
  · constructor
    · rintro ⟨q, hq⟩
      rcases Nat.eq_zero_or_pos sp.failCount with h0 | hpos
      · simp [SafePublish.printStats, h0] at hq
      · exact hpos
    · intro hpos
      exact ⟨(sp.failCount : ℚ) / (SafePublish.statsDivisor sp : ℚ) * 100,
        by simp [SafePublish.printStats, hpos]⟩
  · intro hpos hlt
    have h0 : SafePublish.statsDivisor sp ≠ 0 := by
      have he : SafePublish.statsDivisor sp = sp.successCount + sp.failCount :=
        Nat.mod_eq_of_lt hlt
      omega
    exact_mod_cast h0

/-- Witness for C9 (amended): with one recorded failure and no wrap the divisor
is nonzero. -/
theorem printStats_division_guarded_witness :
    (SafePublish.statsDivisor spFail : ℚ) ≠ 0 :=
  (printStats_division_guarded spFail).2 (by decide)
    (by norm_num [spFail, SafePublish.ULONG_MOD])

/-- No operation except `autoConfigureBuffer` ever calls `setBufferSize` or
changes the configured buffer size. -/
lemma step_buffer_frame (sp : SafePublish) (op : Op)
    (h : ∀ a b : Int, op ≠ Op.autoCfg a b) :
    (step sp op).client.setBufferCalls = sp.client.setBufferCalls ∧
    (step sp op).client.bufferSize = sp.client.bufferSize := by
  cases op with
  | pub t p =>
    exact ⟨(publish_client_frame sp t p).2, (publish_client_frame sp t p).1⟩
  | pubStr t p =>
    exact ⟨(publish_client_frame sp t.c_str p.c_str).2,
      (publish_client_frame sp t.c_str p.c_str).1⟩
  | autoCfg a b => exact absurd rfl (h a b)
  | stats => exact ⟨rfl, rfl⟩
  | reset => exact ⟨rfl, rfl⟩

/-- C10: neither overload of `publish` (nor any operation other than
`autoConfigureBuffer`) modifies the client's configured buffer size or invokes
`setBufferSize`; `autoConfigureBuffer` is the unique operation that records a
`setBufferSize` invocation. -/
theorem publish_preserves_bufferSize :
    (∀ (sp : SafePublish) (t p : String),
      (sp.publish t p).2.client.bufferSize = sp.client.bufferSize ∧
      (sp.publish t p).2.client.setBufferCalls = sp.client.setBufferCalls) ∧
    (∀ (sp : SafePublish) (t p : ArduinoString),
      (sp.publishString t p).2.client.bufferSize = sp.client.bufferSize ∧
      (sp.publishString t p).2.client.setBufferCalls = sp.client.setBufferCalls) ∧
    (∀ (sp : SafePublish) (op : Op), (∀ a b : Int, op ≠ Op.autoCfg a b) →
      (step sp op).client.setBufferCalls = sp.client.setBufferCalls ∧
      (step sp op).client.bufferSize = sp.client.bufferSize) ∧
    (∀ (sp : SafePublish) (a b : Int),
      (sp.autoConfigureBuffer a b).2.client.setBufferCalls =
        sp.client.setBufferCalls ++
          [SafePublish.nextPowerOf2 (SafePublish.neededSize a b)]) :=
  ⟨publish_client_frame,
   fun sp t p => publish_client_frame sp t.c_str p.c_str,
   step_buffer_frame,
   fun _ _ _ => rfl⟩

/-- Witness for C10: a reset step leaves the buffer configuration alone. -/
theorem publish_preserves_bufferSize_witness :
    (step spEx Op.reset).client.setBufferCalls = spEx.client.setBufferCalls ∧
    (step spEx Op.reset).client.bufferSize = spEx.client.bufferSize :=
  publish_preserves_bufferSize.2.2.1 spEx Op.reset (fun a b => by simp)
